import Mathlib

/-!
Shallow embedding of the screen-time-manager core (Rust sources under
`src/`): the budget countdown tick of `mini_overlay.rs`, the pause
engine (`can_pause`, `toggle_pause`, `pause_timer`, `resume_timer`,
`get_remaining_pause_budget`, `get_max_pause_duration`), the blocking
overlay operations of `blocking.rs` (`extend_time`,
`hide_blocking_overlay`, `show_blocking_overlay`, unlock and extend
button handlers), and the Telegram remote command adapter of
`telegram.rs`.

Machine integers (`i32`/`i64` atomics) are modelled as `Int`; no
arithmetic relevant to the claims below can overflow an `i32`/`i64`
at the states the claims quantify over.  Database reads
(`database.rs`) always fall back to a default on a missing or
unparsable key, so each stored setting is modelled as the effective
typed value it yields.  Display-only side effects (window
invalidation, fonts, sounds) are not modelled; the Notifier effects
named by the spec (show warning, show blocking, hide blocking) are
modelled explicitly as an `Effect` list returned next to the state.
-/

namespace ScreenTime

/-- Pause configuration, from `database::get_pause_config`
(`pause_daily_budget`, `pause_max_duration`, `pause_cooldown`,
`pause_min_active_time`, all `u32` minutes). -/
structure PauseConfig where
  daily_budget_minutes : Nat
  max_duration_minutes : Nat
  cooldown_minutes : Nat
  min_active_time_minutes : Nat
deriving DecidableEq, Repr

/-- One warning threshold, from `database::get_warning_config`
(`warningN_minutes : u32`, `warningN_message`). -/
structure WarningConfig where
  minutes : Nat
  message : String
deriving DecidableEq, Repr

/-- The combined process state: the atomics of `blocking.rs` and
`mini_overlay.rs`, the date-scoped database counters, the settings the
claims depend on, the clock reading (`database::get_current_timestamp`),
and the visibility of the two overlay windows. -/
structure World where
  /-- `blocking::REMAINING_SECONDS` (`AtomicI32`, `-1` = uninitialized sentinel). -/
  remaining_seconds : Int
  /-- `mini_overlay::IS_PAUSED`. -/
  is_paused : Bool
  /-- `mini_overlay::PAUSE_START_TIMESTAMP`. -/
  pause_start_timestamp : Int
  /-- `mini_overlay::CURRENT_PAUSE_DURATION`. -/
  current_pause_duration : Int
  /-- `mini_overlay::SESSION_ACTIVE_SECONDS`. -/
  session_active_seconds : Int
  /-- Stored `pause_used_<date>` as read by `database::get_pause_used_today`. -/
  pause_used_today : Int
  /-- Stored `pause_last_end_timestamp` as read by `database::get_last_pause_end`. -/
  last_pause_end : Int
  /-- Stored `pause_log_<date>` entries; the source stores a formatted
  time-of-day string per entry, modelled as (timestamp, duration). -/
  pause_log : List (Int × Int)
  /-- Stored `remaining_time_<date>` (none = key absent). -/
  saved_remaining : Option Int
  /-- Stored `session_active_<date>` (none = key absent). -/
  saved_session_active : Option Int
  /-- `database::is_pause_enabled`. -/
  pause_enabled : Bool
  /-- `database::get_pause_config`. -/
  cfg : PauseConfig
  /-- `database::get_warning_config 1`. -/
  warning1 : WarningConfig
  /-- `database::get_warning_config 2`. -/
  warning2 : WarningConfig
  /-- `database::get_blocking_message`. -/
  blocking_message : String
  /-- `database::get_passcode` (none = key missing, every check fails). -/
  passcode : Option String
  /-- `database::get_current_timestamp`. -/
  now : Int
  /-- Whether the full-screen blocking overlay window is shown (the Blocked state). -/
  blocking_visible : Bool
  /-- Whether the mini countdown overlay window is shown. -/
  mini_visible : Bool
  /-- `blocking::PASSCODE_ERROR`. -/
  passcode_error : Bool
  /-- `blocking::BLOCKING_TEXT`. -/
  blocking_text : Option String
deriving DecidableEq, Repr

/-- Notifier effects observable by the user, per the spec's Notifier
interface: `showWarning(message, durationSeconds)`, `showBlocking(message)`,
`hideBlocking()`. -/
inductive Effect where
  | showWarning (message : String) (durationSeconds : Nat)
  | showBlocking (message : String)
  | hideBlocking
deriving DecidableEq, Repr

/-- Reason why pause is not available (`mini_overlay::PauseBlockedReason`). -/
inductive PauseBlockedReason where
  | Disabled
  | BudgetExhausted
  | CooldownActive (seconds_remaining : Int)
  | MinActiveTimeNotMet (seconds_remaining : Int)
  | TimeTooLow
deriving DecidableEq, Repr

/-- `blocking::extend_time`: add `minutes*60` to the countdown, or start
fresh from `minutes*60` when the countdown was negative (sentinel). -/
def extend_time (minutes : Int) (w : World) : World :=
  let current := w.remaining_seconds
  let additional_seconds := minutes * 60
  if current < 0 then
    { w with remaining_seconds := additional_seconds }
  else
    { w with remaining_seconds := current + additional_seconds }

/-- `mini_overlay::get_remaining_pause_budget`. -/
def get_remaining_pause_budget (w : World) : Int :=
  let budget_seconds : Int := (w.cfg.daily_budget_minutes : Int) * 60
  let used := w.pause_used_today
  max (budget_seconds - used) 0

/-- `mini_overlay::get_max_pause_duration`. -/
def get_max_pause_duration (w : World) : Int :=
  let max_single : Int := (w.cfg.max_duration_minutes : Int) * 60
  min max_single (get_remaining_pause_budget w)

/-- `mini_overlay::can_pause`: the ordered eligibility checks. -/
def can_pause (w : World) : Except PauseBlockedReason Unit :=
  if w.is_paused then .ok ()
  else if ¬ w.pause_enabled then .error .Disabled
  else
    let remaining := w.remaining_seconds
    if remaining < 60 then .error .TimeTooLow
    else
      let budget_seconds : Int := (w.cfg.daily_budget_minutes : Int) * 60
      if w.pause_used_today ≥ budget_seconds then .error .BudgetExhausted
      else
        let cooldown_seconds : Int := (w.cfg.cooldown_minutes : Int) * 60
        let time_since_last_pause := w.now - w.last_pause_end
        if w.last_pause_end > 0 ∧ time_since_last_pause < cooldown_seconds then
          .error (.CooldownActive (cooldown_seconds - time_since_last_pause))
        else
          let min_active_seconds : Int := (w.cfg.min_active_time_minutes : Int) * 60
          if w.session_active_seconds < min_active_seconds then
            .error (.MinActiveTimeNotMet (min_active_seconds - w.session_active_seconds))
          else .ok ()

/-- `mini_overlay::pause_timer`: record the start timestamp, reset the
elapsed counter, set the paused flag. -/
def pause_timer (w : World) : World :=
  { w with pause_start_timestamp := w.now
           current_pause_duration := 0
           is_paused := true }

/-- `mini_overlay::resume_timer`: account the elapsed pause into the
daily usage, log it, persist the end timestamp, clear the pause fields. -/
def resume_timer (w : World) : World :=
  let pause_duration := w.current_pause_duration
  { w with pause_used_today := w.pause_used_today + pause_duration
           pause_log := w.pause_log ++ [(w.now, pause_duration)]
           last_pause_end := w.now
           is_paused := false
           pause_start_timestamp := 0
           current_pause_duration := 0 }

/-- `mini_overlay::force_resume` (called when max duration reached): it
just calls `resume_timer`. -/
def force_resume (w : World) : World :=
  resume_timer w

/-- `mini_overlay::toggle_pause`: resume if paused, else pause when
`can_pause` allows it, propagating the reason otherwise. -/
def toggle_pause (w : World) : World × Except PauseBlockedReason Bool :=
  if w.is_paused then
    (resume_timer w, .ok false)
  else
    match can_pause w with
    | .error r => (w, .error r)
    | .ok () => (pause_timer w, .ok true)

/-- `blocking::show_blocking_overlay_with_time`: hide the mini overlay,
set the blocking text, clear the error flag, store the given remaining
time when nonnegative, and show the blocking window. -/
def show_blocking_overlay_with_time (text : String) (remaining : Int) (w : World) :
    World × List Effect :=
  let w1 := { w with mini_visible := false
                     blocking_text := some text
                     passcode_error := false
                     remaining_seconds :=
                       if remaining ≥ 0 then remaining else w.remaining_seconds
                     blocking_visible := true }
  (w1, [Effect.showBlocking text])

/-- `blocking::show_blocking_overlay`: show with sentinel time `-1`
(the stored countdown is left untouched). -/
def show_blocking_overlay (text : String) (w : World) : World × List Effect :=
  show_blocking_overlay_with_time text (-1) w

/-- `blocking::hide_blocking_overlay`: hide the blocking window, clear
its text, persist the current countdown, and re-show the mini overlay
when time remains. -/
def hide_blocking_overlay (w : World) : World × List Effect :=
  let w1 := { w with blocking_visible := false
                     blocking_text := none
                     saved_remaining := some w.remaining_seconds
                     mini_visible :=
                       if w.remaining_seconds > 0 then true else w.mini_visible }
  (w1, [Effect.hideBlocking])

/-- `blocking::check_blocking_passcode`: plain equality against the
stored passcode; a missing stored passcode never matches. -/
def check_blocking_passcode (entered : String) (w : World) : Bool :=
  match w.passcode with
  | some stored => entered = stored
  | none => false

/-- Unlock button / Return key handler of `blocking_overlay_proc`:
on a correct passcode hide the overlay, otherwise flag the error. -/
def unlock_click (entered : String) (w : World) : World × List Effect :=
  if check_blocking_passcode entered w then
    hide_blocking_overlay w
  else
    ({ w with passcode_error := true }, [])

/-- The three extend buttons of the blocking overlay. -/
inductive ExtendButton where
  | extend15
  | extend30
  | extend60
deriving DecidableEq, Repr

/-- Minutes added by each extend button of `blocking_overlay_proc`. -/
def ExtendButton.minutes : ExtendButton → Int
  | .extend15 => 15
  | .extend30 => 30
  | .extend60 => 60

/-- Extend button handler of `blocking_overlay_proc`: on a correct
passcode extend the countdown, clear the error flag and hide the
overlay; otherwise flag the error. -/
def extend_click (btn : ExtendButton) (entered : String) (w : World) :
    World × List Effect :=
  if check_blocking_passcode entered w then
    let w1 := extend_time btn.minutes w
    let w2 := { w1 with passcode_error := false }
    hide_blocking_overlay w2
  else
    ({ w with passcode_error := true }, [])

/-- The `WM_TIMER` handler of `mini_overlay_proc` (one tick of the
countdown / pause engine): when paused, advance the pause clock and
auto-resume at the cap; otherwise decrement a positive countdown,
track active time, persist every 30 seconds, fire exact-match warnings
and the blocking transition at zero. -/
def mini_tick (w : World) : World × List Effect :=
  if w.is_paused then
    let duration := w.current_pause_duration + 1
    let w1 := { w with current_pause_duration := duration }
    let max_duration := get_max_pause_duration w1
    if duration ≥ max_duration then (force_resume w1, []) else (w1, [])
  else
    let current := w.remaining_seconds
    if current > 0 then
      let new_time := current - 1
      let w1 := { w with remaining_seconds := new_time
                         session_active_seconds := w.session_active_seconds + 1 }
      let w2 :=
        if new_time % 30 = 0 then
          { w1 with saved_remaining := some new_time
                    saved_session_active := some w1.session_active_seconds }
        else w1
      let e1 :=
        if new_time = (w.warning1.minutes : Int) * 60 then
          [Effect.showWarning w.warning1.message 10]
        else []
      let e2 :=
        if new_time = (w.warning2.minutes : Int) * 60 then
          [Effect.showWarning w.warning2.message 10]
        else []
      if new_time = 0 then
        let r := show_blocking_overlay w.blocking_message w2
        (r.1, e1 ++ e2 ++ r.2)
      else
        (w2, e1 ++ e2)
    else
      (w, [])

/-- Telegram bot commands (`telegram::Command`). -/
inductive Command where
  | Start
  | Status
  | Time
  | Extend (minutes : Int)
  | Pause
  | Resume
  | History
  | Chatid
  | Help
deriving DecidableEq, Repr

/-- True for the two setup commands answered before the authorization
check in `telegram::handle_command`. -/
def Command.isSetup : Command → Bool
  | .Start => true
  | .Chatid => true
  | _ => false

/-- Compact minutes:seconds rendering used in the bot replies
(`{}:{:02}` in the source; leading zero padding elided). -/
def mmss (seconds : Int) : String :=
  toString (seconds / 60) ++ ":" ++ toString (seconds % 60)

/-- `telegram::cmd_status` reply text (status glyphs elided). -/
def cmd_status (w : World) : String :=
  "Screen Time Status / Remaining: " ++ mmss w.remaining_seconds
    ++ " / Paused: " ++ (if w.is_paused then "Yes" else "No")
    ++ " / Pause budget: " ++ toString (get_remaining_pause_budget w / 60) ++ " min"

/-- `telegram::cmd_time` reply text (status glyphs elided). -/
def cmd_time (w : World) : String :=
  mmss w.remaining_seconds ++ " remaining"

/-- `telegram::cmd_extend`: validate the minutes range, then call
`blocking::extend_time` and report the new countdown. -/
def cmd_extend (minutes : Int) (w : World) : World × String :=
  if minutes ≤ 0 then
    (w, "Please specify a positive number of minutes")
  else if minutes > 120 then
    (w, "Maximum extension is 120 minutes")
  else
    let w1 := extend_time minutes w
    (w1, "Extended by " ++ toString minutes ++ " minutes / New remaining: "
           ++ mmss w1.remaining_seconds)

/-- `telegram::format_pause_reason`. -/
def format_pause_reason : PauseBlockedReason → String
  | .Disabled => "Pause feature is disabled"
  | .BudgetExhausted => "Daily pause budget exhausted"
  | .CooldownActive s => "Cooldown active (" ++ toString s ++ " seconds remaining)"
  | .MinActiveTimeNotMet s => "Need " ++ toString s ++ " more seconds of active time"
  | .TimeTooLow => "Time is too low to pause"

/-- `telegram::cmd_pause`: reject when already paused, else toggle. -/
def cmd_pause (w : World) : World × String :=
  if w.is_paused then
    (w, "Timer is already paused. Use /resume to continue.")
  else
    match toggle_pause w with
    | (w1, .ok true) => (w1, "Timer paused")
    | (w1, .ok false) => (w1, "Timer was not paused (unexpected state)")
    | (w1, .error r) => (w1, "Cannot pause: " ++ format_pause_reason r)

/-- `telegram::cmd_resume`: reject when not paused, else toggle. -/
def cmd_resume (w : World) : World × String :=
  if ¬ w.is_paused then
    (w, "Timer is not paused")
  else
    match toggle_pause w with
    | (w1, .ok false) => (w1, "Timer resumed")
    | (w1, .ok true) => (w1, "Timer is still paused (unexpected state)")
    | (w1, .error r) => (w1, "Cannot resume: " ++ format_pause_reason r)

/-- `telegram::cmd_history` reply text (log entries elided to count). -/
def cmd_history (w : World) : String :=
  "Pause used: " ++ toString (w.pause_used_today / 60) ++ " / "
    ++ toString w.cfg.daily_budget_minutes ++ " min; "
    ++ toString w.pause_log.length ++ " pause events"

/-- Dispatch of an authorized non-setup command in
`telegram::handle_command` (`/start` and `/chatid` never reach it). -/
def admin_dispatch (cmd : Command) (w : World) : World × String :=
  match cmd with
  | .Status => (w, cmd_status w)
  | .Time => (w, cmd_time w)
  | .Extend minutes => cmd_extend minutes w
  | .Pause => cmd_pause w
  | .Resume => cmd_resume w
  | .History => (w, cmd_history w)
  | .Help => (w, "Screen Time Manager commands")
  | .Start => (w, "")
  | .Chatid => (w, "")

/-- Authorization gate of `telegram::handle_command`: without a
configured admin every non-setup command is rejected; with one, only
the admin chat id may proceed to the dispatch. -/
def auth_gate (cmd : Command) (sender : Int) (admin : Option Int) (w : World) :
    World × String :=
  match admin with
  | none => (w, "No admin configured. Please set your chat ID in settings.")
  | some admin_id =>
    if sender ≠ admin_id then
      (w, "Unauthorized. This bot is configured for a specific user.")
    else
      admin_dispatch cmd w

/-- `telegram::handle_command`: `/start` and `/chatid` are always
answered; every other command requires the sender to be the single
configured admin chat id and is otherwise rejected without touching
any state. -/
def handle_command (cmd : Command) (sender : Int) (admin : Option Int) (w : World) :
    World × String :=
  match cmd with
  | .Start =>
      (w, "Welcome to Screen Time Manager Bot! Your chat ID is: " ++ toString sender)
  | .Chatid =>
      (w, "Your chat ID is: " ++ toString sender)
  | .Status => auth_gate .Status sender admin w
  | .Time => auth_gate .Time sender admin w
  | .Extend minutes => auth_gate (.Extend minutes) sender admin w
  | .Pause => auth_gate .Pause sender admin w
  | .Resume => auth_gate .Resume sender admin w
  | .History => auth_gate .History sender admin w
  | .Help => auth_gate .Help sender admin w

/-- Default pause configuration from `database::init_database`. -/
def defaultPauseConfig : PauseConfig :=
  { daily_budget_minutes := 45
    max_duration_minutes := 20
    cooldown_minutes := 15
    min_active_time_minutes := 10 }

/-- A concrete state with the default settings of `database::init_database`,
a fresh two-hour countdown, the timer running and nothing blocked. -/
def baseWorld : World :=
  { remaining_seconds := 7200
    is_paused := false
    pause_start_timestamp := 0
    current_pause_duration := 0
    session_active_seconds := 0
    pause_used_today := 0
    last_pause_end := 0
    pause_log := []
    saved_remaining := none
    saved_session_active := none
    pause_enabled := true
    cfg := defaultPauseConfig
    warning1 := { minutes := 10, message := "10 minutes remaining!" }
    warning2 := { minutes := 5, message := "5 minutes remaining!" }
    blocking_message := "Your screen time limit has been reached."
    passcode := some "0000"
    now := 1000000
    blocking_visible := false
    mini_visible := true
    passcode_error := false
    blocking_text := none }

deriving instance DecidableEq for Except

/-- First failing check in an ordered list of check results
(spec-side helper for the `CanPause` refinement statement). -/
def firstFailure : List (Option PauseBlockedReason) → Option PauseBlockedReason
  | [] => none
  | none :: rest => firstFailure rest
  | some r :: _ => some r

/-- Spec-side check 1: `Disabled` when the pause feature flag is off. -/
def checkDisabled (w : World) : Option PauseBlockedReason :=
  if w.pause_enabled then none else some .Disabled

/-- Spec-side check 2: `TimeTooLow` when `remaining_seconds < 60`. -/
def checkTimeTooLow (w : World) : Option PauseBlockedReason :=
  if w.remaining_seconds < 60 then some .TimeTooLow else none

/-- Spec-side check 3: `BudgetExhausted` when
`pause_used_today_seconds >= daily_budget_minutes*60`. -/
def checkBudget (w : World) : Option PauseBlockedReason :=
  if w.pause_used_today ≥ (w.cfg.daily_budget_minutes : Int) * 60 then
    some .BudgetExhausted
  else none

/-- Spec-side check 4: `CooldownActive` when a previous pause ended and
less than `cooldown_minutes*60` seconds have passed since. -/
def checkCooldown (w : World) : Option PauseBlockedReason :=
  if w.last_pause_end > 0 ∧ w.now - w.last_pause_end < (w.cfg.cooldown_minutes : Int) * 60 then
    some (.CooldownActive ((w.cfg.cooldown_minutes : Int) * 60 - (w.now - w.last_pause_end)))
  else none

/-- Spec-side check 5: `MinActiveTimeNotMet` when
`session_active_seconds < min_active_time_minutes*60`. -/
def checkMinActive (w : World) : Option PauseBlockedReason :=
  if w.session_active_seconds < (w.cfg.min_active_time_minutes : Int) * 60 then
    some (.MinActiveTimeNotMet ((w.cfg.min_active_time_minutes : Int) * 60 - w.session_active_seconds))
  else none

/-- Modelled from the spec wording of `CanPause`: trivially `Ok` when
already paused, otherwise the first failure among the ordered checks
Disabled, TimeTooLow, BudgetExhausted, CooldownActive,
MinActiveTimeNotMet decides the result, and `Ok` when all pass. -/
def canPauseSpec (w : World) : Except PauseBlockedReason Unit :=
  if w.is_paused then .ok ()
  else
    match firstFailure
        [checkDisabled w, checkTimeTooLow w, checkBudget w,
         checkCooldown w, checkMinActive w] with
    | some r => .error r
    | none => .ok ()

/-- Paused state whose recorded pause usage (2760s) exceeds the daily
pause budget (45min = 2700s), with a 5-minute single-pause cap. -/
def overusedPausedWorld : World :=
  { baseWorld with
      is_paused := true
      current_pause_duration := 0
      pause_used_today := 2760
      cfg := { defaultPauseConfig with max_duration_minutes := 5 } }

/-- Paused state well inside all pause limits, 3 seconds into the pause. -/
def midPauseWorld : World :=
  { baseWorld with is_paused := true, current_pause_duration := 3 }

/-- State with the uninitialized countdown sentinel `-1`. -/
def sentinelWorld : World :=
  { baseWorld with remaining_seconds := -1 }

/-- State with 30 seconds left and the pause feature disabled. -/
def lowTimePauseDisabledWorld : World :=
  { baseWorld with pause_enabled := false, remaining_seconds := 30 }

/-- State with 30 seconds left and the pause feature enabled. -/
def lowTimeWorld : World :=
  { baseWorld with remaining_seconds := 30 }

/-- Blocked state: countdown exhausted, blocking overlay showing. -/
def blockedWorld : World :=
  { baseWorld with
      remaining_seconds := 0
      blocking_visible := true
      mini_visible := false
      blocking_text := some "Your screen time limit has been reached." }

/-- Running state one second above the first warning threshold. -/
def nearWarningWorld : World :=
  { baseWorld with remaining_seconds := 601 }

/-- C1: for every state with `remaining_seconds > 0` and
`is_paused = false`, one tick of the mini overlay `WM_TIMER` handler
decreases `remaining_seconds` by exactly 1 and increases
`session_active_seconds` by exactly 1. -/
theorem c1_tick_decrements (w : World)
    (hp : w.is_paused = false) (hr : 0 < w.remaining_seconds) :
    (mini_tick w).1.remaining_seconds = w.remaining_seconds - 1 ∧
    (mini_tick w).1.session_active_seconds = w.session_active_seconds + 1 := by
  unfold mini_tick
  simp only [hp, Bool.false_eq_true, if_false, hr, if_pos,
    show_blocking_overlay, show_blocking_overlay_with_time]
  split_ifs with h30 h0 h0 <;> simp_all

/-- C1 witness: the theorem applied at the default fresh state. -/
theorem c1_tick_decrements_witness :
    (mini_tick baseWorld).1.remaining_seconds = baseWorld.remaining_seconds - 1 ∧
    (mini_tick baseWorld).1.session_active_seconds = baseWorld.session_active_seconds + 1 :=
  c1_tick_decrements baseWorld rfl (by decide)

/-- C10: for every state, the remaining pause budget equals
`max(daily_budget_minutes*60 - pause_used_today_seconds, 0)` and both it
and the maximum pause duration are never negative, even when the
recorded pause usage exceeds the daily budget. -/
theorem c10_pause_budget_nonneg (w : World) :
    get_remaining_pause_budget w
        = max ((w.cfg.daily_budget_minutes : Int) * 60 - w.pause_used_today) 0 ∧
    0 ≤ get_remaining_pause_budget w ∧
    0 ≤ get_max_pause_duration w := by
  unfold get_max_pause_duration get_remaining_pause_budget
  refine ⟨rfl, le_max_right _ _, le_min ?_ (le_max_right _ _)⟩
  positivity

/-- C5 counterexample: at the uninitialized sentinel state
(`remaining_seconds = -1`), `ExtendTime(0)` is not a no-op: it sets
`remaining_seconds` to `0`. -/
theorem c5_extend_zero_counterexample :
    sentinelWorld.remaining_seconds = -1 ∧
    (extend_time 0 sentinelWorld).remaining_seconds = 0 ∧
    (extend_time 0 sentinelWorld).remaining_seconds ≠ sentinelWorld.remaining_seconds := by
  refine ⟨rfl, rfl, by decide⟩

/-- C5 amended: `ExtendTime(0)` is a no-op on every state whose
`remaining_seconds` is nonnegative; on a negative `remaining_seconds`
(the uninitialized sentinel) it starts fresh and sets the countdown to
`0*60 = 0`. -/
theorem c5_extend_zero (w : World) :
    (0 ≤ w.remaining_seconds → extend_time 0 w = w) ∧
    (w.remaining_seconds < 0 → (extend_time 0 w).remaining_seconds = 0) := by
  unfold extend_time
  constructor
  · intro h
    rw [if_neg (by omega)]
    simp
  · intro h
    rw [if_pos h]
    simp

/-- C5 amended witness: the theorem applied at the default fresh state. -/
theorem c5_extend_zero_witness : extend_time 0 baseWorld = baseWorld :=
  (c5_extend_zero baseWorld).1 (by decide)

/-- C6 counterexample: with the pause feature disabled,
`remaining_seconds = 30` and not paused, `CanPause()` returns
`Disabled`, not `TimeTooLow` — so the result is not independent of the
enabled flag. -/
theorem c6_time_too_low_counterexample :
    lowTimePauseDisabledWorld.remaining_seconds = 30 ∧
    lowTimePauseDisabledWorld.is_paused = false ∧
    can_pause lowTimePauseDisabledWorld = .error .Disabled ∧
    can_pause lowTimePauseDisabledWorld ≠ .error .TimeTooLow := by
  refine ⟨rfl, rfl, by decide, by decide⟩

/-- C6 amended: whenever the pause feature is enabled, the state is not
paused and `remaining_seconds = 30`, `CanPause()` returns `TimeTooLow`,
regardless of the budget, cooldown and min-active configuration. -/
theorem c6_time_too_low (w : World)
    (hp : w.is_paused = false) (he : w.pause_enabled = true)
    (hr : w.remaining_seconds = 30) :
    can_pause w = .error .TimeTooLow := by
  unfold can_pause
  simp [hp, he, hr]

/-- C6 amended witness: the theorem applied at a concrete low-time state. -/
theorem c6_time_too_low_witness :
    can_pause lowTimeWorld = .error .TimeTooLow :=
  c6_time_too_low lowTimeWorld rfl rfl rfl

/-- C4: `can_pause` agrees with the spec-side evaluation that applies
the checks Disabled, TimeTooLow, BudgetExhausted, CooldownActive,
MinActiveTimeNotMet in that fixed order with the first failure winning,
returns `Ok` when all pass, and returns `Ok` when already paused. -/
theorem c4_can_pause_ordered (w : World) : can_pause w = canPauseSpec w := by
  unfold can_pause canPauseSpec checkDisabled checkTimeTooLow checkBudget
    checkCooldown checkMinActive
  by_cases h1 : w.is_paused <;>
    by_cases h2 : w.pause_enabled <;>
    by_cases h3 : w.remaining_seconds < 60 <;>
    by_cases h4 : w.pause_used_today ≥ (w.cfg.daily_budget_minutes : Int) * 60 <;>
    by_cases h5 : w.last_pause_end > 0
        ∧ w.now - w.last_pause_end < (w.cfg.cooldown_minutes : Int) * 60 <;>
    by_cases h6 : w.session_active_seconds < (w.cfg.min_active_time_minutes : Int) * 60 <;>
    simp [h1, h2, h3, h4, h5, h6, firstFailure]

/-- C2 counterexample: in a paused state whose recorded pause usage
(2760s) exceeds the daily budget (2700s), a tick forces an automatic
resume immediately, although the incremented `current_pause_elapsed`
(1) never equals `min(max_duration_minutes*60, daily_budget_minutes*60
- pause_used_today_seconds) = -60`, and `current_pause_elapsed` is not
increased by 1 (the resume resets it to 0). -/
theorem c2_pause_tick_counterexample :
    overusedPausedWorld.is_paused = true ∧
    overusedPausedWorld.current_pause_duration = 0 ∧
    (mini_tick overusedPausedWorld).1.is_paused = false ∧
    (mini_tick overusedPausedWorld).1.current_pause_duration = 0 ∧
    min ((overusedPausedWorld.cfg.max_duration_minutes : Int) * 60)
        ((overusedPausedWorld.cfg.daily_budget_minutes : Int) * 60
          - overusedPausedWorld.pause_used_today) = -60 := by
  refine ⟨rfl, rfl, by decide, by decide, by decide⟩

/-- C2 amended: for every paused state, a tick leaves
`remaining_seconds` unchanged and first increments
`current_pause_elapsed`; it then forces an automatic resume — with
exactly the effect of an explicit resume applied to the incremented
state — precisely when the incremented value has reached
`min(max_duration_minutes*60, max(daily_budget_minutes*60 -
pause_used_today_seconds, 0))`, and otherwise only the increment
remains. -/
theorem c2_pause_tick (w : World) (hp : w.is_paused = true) :
    (mini_tick w).1.remaining_seconds = w.remaining_seconds ∧
    (min ((w.cfg.max_duration_minutes : Int) * 60)
        (max ((w.cfg.daily_budget_minutes : Int) * 60 - w.pause_used_today) 0)
        ≤ w.current_pause_duration + 1 →
      (mini_tick w).1
        = resume_timer { w with current_pause_duration := w.current_pause_duration + 1 }) ∧
    (w.current_pause_duration + 1
        < min ((w.cfg.max_duration_minutes : Int) * 60)
            (max ((w.cfg.daily_budget_minutes : Int) * 60 - w.pause_used_today) 0) →
      (mini_tick w).1 = { w with current_pause_duration := w.current_pause_duration + 1 }) := by
  unfold mini_tick force_resume get_max_pause_duration get_remaining_pause_budget
  simp only [hp, if_true, if_pos]
  refine ⟨?_, ?_, ?_⟩
  · split_ifs <;> simp [resume_timer]
  · intro h
    rw [if_pos (by simpa using h)]
  · intro h
    rw [if_neg (by simpa using not_le.mpr h)]

/-- C2 amended witness: the theorem applied 3 seconds into a pause well
below the cap, so only the increment happens. -/
theorem c2_pause_tick_witness :
    (mini_tick midPauseWorld).1
      = { midPauseWorld with current_pause_duration := 4 } :=
  (c2_pause_tick midPauseWorld rfl).2.2 (by decide)

/-- C7: on a decrementing tick (not paused, positive countdown, the two
configured warning messages distinct), the warning overlay for each
threshold fires — with the configured message and the fixed 10-second
duration — exactly when the post-decrement countdown equals
`threshold_minutes*60`; adjacent values never fire it. -/
theorem c7_warning_exact (w : World)
    (hp : w.is_paused = false) (hr : 0 < w.remaining_seconds)
    (hm : w.warning1.message ≠ w.warning2.message) :
    (Effect.showWarning w.warning1.message 10 ∈ (mini_tick w).2
        ↔ w.remaining_seconds - 1 = (w.warning1.minutes : Int) * 60) ∧
    (Effect.showWarning w.warning2.message 10 ∈ (mini_tick w).2
        ↔ w.remaining_seconds - 1 = (w.warning2.minutes : Int) * 60) := by
  unfold mini_tick show_blocking_overlay show_blocking_overlay_with_time
  simp only [hp, Bool.false_eq_true, if_false, hr, if_pos]
  split_ifs <;> simp_all [List.mem_append] <;> exact fun hh => hm hh.symm

/-- C7 witness: the theorem applied at 601 seconds remaining with the
default warning configuration; the tick lands exactly on 600 = 10*60
and the first warning fires. -/
theorem c7_warning_exact_witness :
    Effect.showWarning nearWarningWorld.warning1.message 10 ∈ (mini_tick nearWarningWorld).2 :=
  ((c7_warning_exact nearWarningWorld rfl (by decide) (by decide)).1).mpr (by decide)

/-- C9: while the blocking overlay is showing, a successful unlock
(correct passcode) leaves `remaining_seconds` unchanged: it only hides
the blocking display, persists the current countdown value, and emits
the hide-blocking effect — it never adds or removes time. -/
theorem c9_unlock_preserves_time (w : World) (entered : String)
    (hb : w.blocking_visible = true)
    (hok : check_blocking_passcode entered w = true) :
    (unlock_click entered w).1.remaining_seconds = w.remaining_seconds ∧
    (unlock_click entered w).1.blocking_visible = false ∧
    (unlock_click entered w).1.saved_remaining = some w.remaining_seconds ∧
    (unlock_click entered w).2 = [Effect.hideBlocking] := by
  unfold unlock_click hide_blocking_overlay
  simp [hok]

/-- C9 witness: the theorem applied at a concrete blocked state with
the default passcode entered correctly. -/
theorem c9_unlock_preserves_time_witness :
    (unlock_click "0000" blockedWorld).1.remaining_seconds
        = blockedWorld.remaining_seconds ∧
    (unlock_click "0000" blockedWorld).2 = [Effect.hideBlocking] := by
  have h := c9_unlock_preserves_time blockedWorld "0000" rfl (by decide)
  exact ⟨h.1, h.2.2.2⟩

/-- C3 counterexample: a remote `/extend 15` received while the
blocking overlay is showing adds the time (calls `ExtendTime` with
positive minutes) but leaves the blocking overlay showing: the state
does not re-transition to Active and no hide-blocking effect occurs,
so the claimed behavior does not hold for every caller. -/
theorem c3_remote_extend_counterexample :
    blockedWorld.blocking_visible = true ∧
    (handle_command (.Extend 15) 42 (some 42) blockedWorld).1.remaining_seconds
      = blockedWorld.remaining_seconds + 15 * 60 ∧
    (handle_command (.Extend 15) 42 (some 42) blockedWorld).1.blocking_visible = true := by
  refine ⟨rfl, by decide, by decide⟩

/-- C3 amended: an extend invoked from the blocking overlay's own
extend buttons with a correct passcode while Blocked hides the blocking
display, emitting the hide-blocking effect exactly once; but this does
not extend to every caller — a remote extend adds the minutes without
ever invoking hide-blocking, leaving the blocking display visibility
unchanged. -/
theorem c3_extend_hide_blocking (w : World) (btn : ExtendButton) (entered : String)
    (hb : w.blocking_visible = true)
    (hok : check_blocking_passcode entered w = true) :
    ((extend_click btn entered w).2 = [Effect.hideBlocking] ∧
     (extend_click btn entered w).1.blocking_visible = false ∧
     (extend_click btn entered w).1.remaining_seconds
       = (extend_time btn.minutes w).remaining_seconds) ∧
    (∀ (v : World) (m sender : Int),
       (handle_command (.Extend m) sender (some sender) v).1.blocking_visible
         = v.blocking_visible) := by
  constructor
  · unfold extend_click hide_blocking_overlay
    simp [hok]
  · intro v m sender
    simp only [handle_command, auth_gate]
    rw [if_neg (by simp)]
    simp only [admin_dispatch, cmd_extend]
    split_ifs with h1 h2
    · rfl
    · rfl
    · simp only [extend_time]
      split_ifs <;> rfl

/-- C3 amended witness: the theorem applied at a concrete blocked
state via the +15 button with the correct passcode. -/
theorem c3_extend_hide_blocking_witness :
    (extend_click ExtendButton.extend15 "0000" blockedWorld).2 = [Effect.hideBlocking] ∧
    (extend_click ExtendButton.extend15 "0000" blockedWorld).1.blocking_visible = false :=
  ⟨(c3_extend_hide_blocking blockedWorld  ExtendButton.extend15 "0000" rfl (by decide)).1.1,
   (c3_extend_hide_blocking blockedWorld  ExtendButton.extend15 "0000" rfl (by decide)).1.2.1⟩

/-- C8: the remote extend mutates state by calling `ExtendTime` exactly
when `1 ≤ minutes ≤ 120` (and then it really changes the countdown),
answering with a fixed rejection and unchanged state otherwise; and
every command other than `/start` and `/chatid` from a sender that is
not the configured admin identity gets the fixed unauthorized reply
with no state mutation. -/
theorem c8_remote_gatekeeping :
    (∀ (w : World) (m admin_id : Int),
       (1 ≤ m → m ≤ 120 →
         (handle_command (.Extend m) admin_id (some admin_id) w).1 = extend_time m w ∧
         (extend_time m w).remaining_seconds ≠ w.remaining_seconds) ∧
       (m ≤ 0 →
         handle_command (.Extend m) admin_id (some admin_id) w
           = (w, "Please specify a positive number of minutes")) ∧
       (120 < m →
         handle_command (.Extend m) admin_id (some admin_id) w
           = (w, "Maximum extension is 120 minutes"))) ∧
    (∀ (w : World) (cmd : Command) (sender admin_id : Int),
       cmd.isSetup = false → sender ≠ admin_id →
       handle_command cmd sender (some admin_id) w
         = (w, "Unauthorized. This bot is configured for a specific user.")) := by
  constructor
  · intro w m admin_id
    refine ⟨fun h1 h2 => ⟨?_, ?_⟩, fun h0 => ?_, fun h120 => ?_⟩
    · simp only [handle_command, auth_gate]
      rw [if_neg (by simp)]
      simp only [admin_dispatch, cmd_extend]
      rw [if_neg (by omega), if_neg (by omega)]
    · unfold extend_time
      by_cases hc : w.remaining_seconds < 0 <;> simp [hc] <;> omega
    · simp only [handle_command, auth_gate]
      rw [if_neg (by simp)]
      simp only [admin_dispatch, cmd_extend]
      rw [if_pos h0]
    · simp only [handle_command, auth_gate]
      rw [if_neg (by simp)]
      simp only [admin_dispatch, cmd_extend]
      rw [if_neg (by omega), if_pos h120]
  · intro w cmd sender admin_id hset hne
    cases cmd <;> simp_all [handle_command, auth_gate, Command.isSetup]

/-- C8 witness: the theorem applied for an in-range extend from the
admin and for a `/pause` from a non-admin sender. -/
theorem c8_remote_gatekeeping_witness :
    (handle_command (.Extend 15) 7 (some 7) baseWorld).1 = extend_time 15 baseWorld ∧
    handle_command .Pause 1 (some 2) baseWorld
      = (baseWorld, "Unauthorized. This bot is configured for a specific user.") :=
  ⟨((c8_remote_gatekeeping.1 baseWorld 15 7).1 (by decide) (by decide)).1,
   c8_remote_gatekeeping.2 baseWorld .Pause 1 2 rfl (by decide)⟩

end ScreenTime
